import Mathlib

/-!
Verification development for the aura-web voice chat client.

The definitions below are shallow embeddings of the TypeScript sources:
the Gemini generator client (`services/gemini.ts`), the conversation /
turn-controller hook (`hooks/useConversation.ts`, rich variant with history,
retries and stream buffering), the speech-recognition dedup logic
(`hooks/useSpeechRecognition.ts`), and the language-detection utilities
(`utils/languageDetection.ts`).  Strings are Lean `String`s; character-level
work uses `List Char`.  Asynchronous callback flow is embedded as explicit
state passing: a generation call is a function of the environment (API key,
fetch outcome) returning the emitted fragments, callback counts and final
state, and interleavings with cancellation are modelled by small traces of
actions over the module-level `activeRequest` cell.
-/

/-- Whitespace class of the JavaScript regexes `\s` and of `String.prototype.trim`:
ASCII whitespace plus NBSP, BOM and the Unicode line/paragraph separators. -/
def isJsWs (c : Char) : Bool :=
  c = ' ' || c = '\t' || c = '\n' || c = '\r' ||
  c.toNat = 11 || c.toNat = 12 || c.toNat = 0xA0 || c.toNat = 0xFEFF ||
  c.toNat = 0x2028 || c.toNat = 0x2029

/-- JavaScript `String.prototype.trim` on a character list: strip leading and
trailing whitespace. -/
def jsTrim (cs : List Char) : List Char :=
  ((cs.dropWhile isJsWs).reverse.dropWhile isJsWs).reverse

/-- JavaScript `String.prototype.trim` on a `String`. -/
def jsTrimS (s : String) : String :=
  ⟨jsTrim s.data⟩

/-- Sentence terminators of the regex `[.!?]` in `services/gemini.ts`. -/
def isSentTerm (c : Char) : Bool :=
  c = '.' || c = '!' || c = '?'

/-- One pass of the global regex replace `text.replace(/([.!?])\s+/g, '$1|')`.
The boolean flag is true while the scanner is consuming the greedy `\s+` run
that follows a matched terminator. -/
def replAux : Bool → List Char → List Char
  | _, [] => []
  | skipping, c :: rest =>
    if skipping && isJsWs c then replAux true rest
    else if isSentTerm c && (match rest with | [] => false | d :: _ => isJsWs d) then
      c :: '|' :: replAux true rest
    else
      c :: replAux false rest

/-- The replace step of the re-segmentation in `generateGeminiResponse`
(`services/gemini.ts`): each sentence terminator followed by whitespace is
kept and the whitespace run is replaced by the separator `|`. -/
def replaceTermWs (cs : List Char) : List Char :=
  replAux false cs

/-- Re-segmentation of the decoded reply into sentence-sized fragments, from
`services/gemini.ts`: replace terminator-plus-whitespace by `$1|`, split on
`|`, keep the chunks whose trim is non-empty, and trim each kept chunk. -/
def resegment (cs : List Char) : List (List Char) :=
  (((replaceTermWs cs).splitOn '|').filter (fun ch => jsTrim ch ≠ [])).map jsTrim

/-- String-level wrapper of `resegment`. -/
def resegmentS (s : String) : List String :=
  (resegment s.data).map (fun l => (⟨l⟩ : String))

/-- Membership in the character class of the regex
`[ऀ-ॿঀ-৿-꣠-ꣿ]` from
`utils/languageDetection.ts`.  After the complete range `ঀ-৿` the
following `-` cannot extend a range, so the class is the Devanagari block,
the Bengali block, a literal hyphen, and the Devanagari Extended block. -/
def matchesHindiClass (c : Char) : Bool :=
  (0x900 ≤ c.toNat && c.toNat ≤ 0x97F) ||
  (0x980 ≤ c.toNat && c.toNat ≤ 0x9FF) ||
  c = '-' ||
  (0xA8E0 ≤ c.toNat && c.toNat ≤ 0xA8FF)

/-- The exported `isHindiText` of `utils/languageDetection.ts`:
`devanagariRange.test(text)` holds iff some character matches the class. -/
def isHindiText (s : String) : Bool :=
  s.data.any matchesHindiClass

/-- Character test of the regex `[ऀ-ॿ]` used by the local
`isHindiText` of the bilingual `useConversation` variant. -/
def isDevanagariCp (c : Char) : Bool :=
  0x900 ≤ c.toNat && c.toNat ≤ 0x97F

/-- The local `isHindiText` of the bilingual `useConversation` variant:
true iff the text contains a Devanagari code point. -/
def isHindiTextDev (s : String) : Bool :=
  s.data.any isDevanagariCp

/-- Locale tags used by the bilingual variants. -/
inductive LangTag where
  | enUS
  | hiIN
deriving DecidableEq, Repr

/-- Fragment tagging of the bilingual `useConversation` variant:
`const chunkLanguage = isHindiText(chunk) ? 'hi-IN' : 'en-US'`. -/
def tagChunk (chunk : String) : LangTag :=
  if isHindiTextDev chunk then LangTag.hiIN else LangTag.enUS

/-- Latin letter, for the claim about fragments containing only Latin text. -/
def isLatinLetter (c : Char) : Bool :=
  (65 ≤ c.toNat && c.toNat ≤ 90) || (97 ≤ c.toNat && c.toNat ≤ 122)

/-- The module-level mutable state of `services/gemini.ts`: a store of
created `AbortController` tokens (indexed by creation order, each with its
aborted flag) and the current value of the module variable `activeRequest`
(`none` models the JavaScript `null`). -/
structure GenModule where
  aborted : List Bool
  active : Option Nat
deriving DecidableEq, Repr

/-- The exported `cancelActiveRequest`: if a request is active, abort its
token and set the module variable to `null`; otherwise do nothing. -/
def opCancel (m : GenModule) : GenModule :=
  match m.active with
  | none => m
  | some t => { aborted := m.aborted.set t true, active := none }

/-- The synchronous prelude of a new `generateGeminiResponse` call: abort the
currently active token (if any), then install a fresh, unaborted controller
as the module-level `activeRequest`. -/
def opStartNew (m : GenModule) : GenModule :=
  let m1 : GenModule :=
    match m.active with
    | none => m
    | some t => { m with aborted := m.aborted.set t true }
  { aborted := m1.aborted ++ [false], active := some m1.aborted.length }

/-- The loop guard expression `activeRequest?.signal.aborted` of the
fragment-emission loop, evaluated against the module state: JavaScript
optional chaining yields `undefined` (falsy) when `activeRequest` is `null`. -/
def checkActiveAborted (m : GenModule) : Bool :=
  match m.active with
  | none => false
  | some t => m.aborted.getD t false

/-- Events observable while one call is in its fragment-emission loop and
other code runs during the inter-fragment `setTimeout` suspensions. -/
inductive GenEvent where
  | frag (s : String)
  | cancelled
  | superseded
deriving DecidableEq, Repr

/-- Actions that can be interleaved with the emission loop of a call:
one iteration of its own loop, an explicit `cancelActiveRequest`, or the
synchronous start of a newer `generateGeminiResponse` call. -/
inductive GenAction where
  | emitStep
  | cancelCall
  | startCall
deriving DecidableEq, Repr

/-- Interleaved execution of the emission loop
`for (let i = 0; i < sentences.length && !activeRequest?.signal.aborted; i++)
onChunk(sentences[i])` of one call against the module state.  `i` is the
loop index of the observed call; cancellations and newer calls mutate the
shared module state between its iterations. -/
def runGen (sents : List String) : GenModule → Nat → List GenAction → List GenEvent
  | _, _, [] => []
  | m, i, GenAction.cancelCall :: acts =>
    GenEvent.cancelled :: runGen sents (opCancel m) i acts
  | m, i, GenAction.startCall :: acts =>
    GenEvent.superseded :: runGen sents (opStartNew m) i acts
  | m, i, GenAction.emitStep :: acts =>
    if i < sents.length && !(checkActiveAborted m) then
      GenEvent.frag (sents.getD i "") :: runGen sents m (i + 1) acts
    else
      runGen sents m i acts

/-- A decoded HTTP response as seen by `generateGeminiResponse`: the numeric
status and the text extracted by `data.candidates[0]?.content?.parts[0]?.text
|| ''` (an empty string models both an empty reply and missing candidates). -/
structure FetchResp where
  status : Nat
  text : String
deriving DecidableEq, Repr

/-- Outcome of the awaited `fetch`: either the request was aborted while in
flight (the promise rejects with `AbortError`) or a response arrived. -/
inductive FetchResult where
  | aborted
  | resp (r : FetchResp)
deriving DecidableEq, Repr

/-- Truthiness of `GEMINI_API_KEY`: absent (`none`, the env var is
`undefined`) and the empty string are both falsy. -/
def keyTruthy (k : Option String) : Bool :=
  match k with
  | none => false
  | some s => !(s == "")

/-- Whether `response.ok` holds: the status is in the 2xx success range. -/
def respOk (r : FetchResp) : Bool :=
  200 ≤ r.status && r.status < 300

/-- Error message `Failed to get response from Gemini API: ${response.status}`. -/
def httpErrMsg (status : Nat) : String :=
  "Failed to get response from Gemini API: " ++ Nat.repr status

/-- Observable summary of one `generateGeminiResponse` call: whether `fetch`
was reached, the fragments passed to `onChunk`, whether `onComplete` fired,
and the messages passed to `onError`. -/
structure GenCallResult where
  fetchCalled : Bool
  chunks : List String
  completed : Bool
  errors : List String
deriving DecidableEq, Repr

/-- One complete `generateGeminiResponse` call as a function of the
environment.  A missing or empty API key throws before `fetch`; an abort of
the in-flight `fetch` raises `AbortError`, which the catch block silently
drops (no `onError`, no `onComplete`); a non-2xx status and an empty decoded
text throw and are reported through `onError`; otherwise the re-segmented
fragments are emitted and `onComplete` fires. -/
def geminiCall (key : Option String) (fr : FetchResult) : GenCallResult :=
  if !(keyTruthy key) then
    ⟨false, [], false, ["Gemini API key not found"]⟩
  else
    match fr with
    | FetchResult.aborted => ⟨true, [], false, []⟩
    | FetchResult.resp r =>
      if !(respOk r) then ⟨true, [], false, [httpErrMsg r.status]⟩
      else if r.text == "" then ⟨true, [], false, ["No response received from Gemini API"]⟩
      else ⟨true, resegmentS r.text, true, []⟩

/-- Message roles of the `ChatMessage` interface in `useConversation.ts`. -/
inductive Role where
  | user
  | assistant
deriving DecidableEq, Repr

/-- The `ChatMessage` record of the rich `useConversation` variant:
role, content, and the `Date.now()` timestamp. -/
structure ChatMessage where
  role : Role
  content : String
  timestamp : Nat
deriving DecidableEq, Repr

/-- `MAX_HISTORY_LENGTH` from `useConversation.ts`. -/
def MAX_HISTORY_LENGTH : Nat := 10

/-- `MAX_RETRY_ATTEMPTS` from `useConversation.ts`. -/
def MAX_RETRY_ATTEMPTS : Nat := 2

/-- `RETRY_DELAY` (milliseconds) from `useConversation.ts`. -/
def RETRY_DELAY : Nat := 1000

/-- `STREAM_CHUNK_SIZE` (words) from `useConversation.ts`. -/
def STREAM_CHUNK_SIZE : Nat := 10

/-- `trimChatHistory` from `useConversation.ts`: when the history exceeds the
cap, keep its first entry followed by the last `MAX_HISTORY_LENGTH - 1`
entries (`[h[0], ...h.slice(-(MAX_HISTORY_LENGTH - 1))]`). -/
def trimChatHistory (h : List ChatMessage) : List ChatMessage :=
  if h.length > MAX_HISTORY_LENGTH then
    h.take 1 ++ h.drop (h.length - (MAX_HISTORY_LENGTH - 1))
  else h

/-- Appending one message followed by the trim that `processUserInput`
performs after every push. -/
def pushAndTrim (h : List ChatMessage) (m : ChatMessage) : List ChatMessage :=
  trimChatHistory (h ++ [m])

/-- Modelled from the spec: `useConversation.ts` (rich variant) imports
`getLocalizedErrorMessage` from `utils/languageDetection`, but no source
file in the repository defines it; the spec says user-visible failures are
rendered as an apologetic message in the active locale.  Modelled as a fixed
apologetic message. -/
def getLocalizedErrorMessage (_errorMessage : String) : String :=
  "Sorry, an error occurred. Please try again"

/-- JavaScript `str.split(/\s+/)` used for the word count of the stream
buffer: segments between maximal whitespace runs, with an empty leading or
trailing segment when the string starts or ends with whitespace.  The flag
is true while inside a whitespace run. -/
def splitWsAux : Bool → List Char → List Char → List (List Char)
  | _, [], acc => [acc.reverse]
  | true, c :: rest, acc =>
    if isJsWs c then splitWsAux true rest acc else splitWsAux false rest (c :: acc)
  | false, c :: rest, acc =>
    if isJsWs c then acc.reverse :: splitWsAux true rest [] else splitWsAux false rest (c :: acc)

/-- JavaScript `str.split(/\s+/)` on a string. -/
def jsSplitWs (s : String) : List (List Char) :=
  splitWsAux false s.data []

/-- Mutable per-turn state of the rich `useConversation` hook: the React
state `isLoading` and `error`, and the refs `processingRef`,
`chatHistoryRef`, `retryAttemptsRef`, `retryTimeoutRef` (pending delay),
`streamBufferRef` and `streamTimerRef` (whether a flush timer is pending). -/
structure ConvState where
  isLoading : Bool
  error : Option String
  processing : Bool
  history : List ChatMessage
  retryAttempts : Nat
  retryTimeoutPending : Option Nat
  streamBuffer : String
  streamTimerPending : Bool
deriving DecidableEq, Repr

/-- The `onChunk` callback of `processUserInput`: append the chunk to the
stream buffer; if the buffer reaches `STREAM_CHUNK_SIZE` words, flush it to
`onStream` and clear the flush timer, otherwise (re)arm the 300 ms flush
timer.  Returns the new state and the texts passed to `onStream`. -/
def onChunkStep (st : ConvState) (chunk : String) : ConvState × List String :=
  let buf := st.streamBuffer ++ chunk
  if STREAM_CHUNK_SIZE ≤ (jsSplitWs buf).length then
    ({ st with streamBuffer := "", streamTimerPending := false }, [buf])
  else
    ({ st with streamBuffer := buf, streamTimerPending := true }, [])

/-- Folding `onChunk` over the fragments delivered by the generator,
accumulating the `onStream` emissions in order. -/
def runChunks (st : ConvState) (chunks : List String) : ConvState × List String :=
  chunks.foldl
    (fun acc ch =>
      let r := onChunkStep acc.1 ch
      (r.1, acc.2 ++ r.2))
    (st, [])

/-- The `onComplete` callback of `processUserInput`: flush a non-empty
stream buffer, append the assembled assistant reply to the history (when
non-empty) and trim, then clear `isLoading`, `processing` and the retry
counter. -/
def onCompleteStep (st : ConvState) (resp : String) (now : Nat) : ConvState × List String :=
  let flushed := if st.streamBuffer ≠ "" then [st.streamBuffer] else []
  let st1 := if st.streamBuffer ≠ "" then { st with streamBuffer := "" } else st
  let st2 :=
    if resp ≠ "" then
      { st1 with history := pushAndTrim st1.history ⟨Role.assistant, resp, now⟩ }
    else st1
  ({ st2 with isLoading := false, processing := false, retryAttempts := 0 }, flushed)

/-- The `handleError` closure of `processUserInput`: record the error, emit
the localized apology through `onStream`, clear `isLoading` and
`processing`, and — while below `MAX_RETRY_ATTEMPTS` — bump the attempt
counter and schedule a retry after `RETRY_DELAY * attemptNumber`
milliseconds.  Returns the new state, the `onStream` emissions, and the
scheduled retry delay (if any). -/
def handleError (st : ConvState) (msg : String) : ConvState × List String × Option Nat :=
  let st1 := { st with error := some msg, isLoading := false, processing := false }
  if st1.retryAttempts < MAX_RETRY_ATTEMPTS then
    let a := st1.retryAttempts + 1
    ({ st1 with retryAttempts := a, retryTimeoutPending := some (RETRY_DELAY * a) },
     [getLocalizedErrorMessage msg], some (RETRY_DELAY * a))
  else
    (st1, [getLocalizedErrorMessage msg], none)

/-- Behaviour of the awaited `generateGeminiResponse` as observed by
`processUserInput`: the fragments arrive and `onComplete` fires, or
`onError` fires with a message, or the request is aborted in flight and no
callback fires at all. -/
inductive GenOutcome where
  | success (chunks : List String)
  | failure (msg : String)
  | abortedCall
deriving DecidableEq, Repr

/-- Observable result of one `processUserInput` call: the state afterwards,
the texts passed to `onStream` in order, the number of
`generateGeminiResponse` invocations, the scheduled retry delay (if any),
and the roles appended to the chat history, in append order. -/
structure CallOut where
  state : ConvState
  streamed : List String
  genCalls : Nat
  schedRetry : Option Nat
  appended : List Role
deriving DecidableEq, Repr

/-- One call of `processUserInput` from `useConversation.ts` (rich variant).
If `processing` is already true the call returns at once.  Otherwise it sets
the transient flags, appends the user message (then trims), and invokes the
generator, whose outcome drives the `onChunk`/`onComplete`/`handleError`
callbacks modelled above. -/
def processUserInput (s : ConvState) (input : String) (now : Nat) (o : GenOutcome) : CallOut :=
  if s.processing then
    ⟨s, [], 0, none, []⟩
  else
    let s1 := { s with isLoading := true, error := none, processing := true, streamBuffer := "" }
    let s2 := { s1 with history := pushAndTrim s1.history ⟨Role.user, input, now⟩ }
    match o with
    | GenOutcome.abortedCall => ⟨s2, [], 1, none, [Role.user]⟩
    | GenOutcome.failure msg =>
      let r := handleError s2 msg
      ⟨r.1, r.2.1, 1, r.2.2, [Role.user]⟩
    | GenOutcome.success chunks =>
      let r := runChunks s2 chunks
      let resp := chunks.foldl (fun a c => a ++ c) ""
      let r2 := onCompleteStep r.1 resp now
      ⟨r2.1, r.2 ++ r2.2, 1, none,
       Role.user :: (if resp ≠ "" then [Role.assistant] else [])⟩

/-- The `ConvState` effect of `cancelResponse` from `useConversation.ts`:
clear both pending timers, reset `isLoading`, `processing`, the retry
counter and the stream buffer.  The history is not touched. -/
def cancelConvState (s : ConvState) : ConvState :=
  { s with isLoading := false, processing := false, retryAttempts := 0,
           retryTimeoutPending := none, streamBuffer := "", streamTimerPending := false }

/-- `cancelResponse`: the state reset above together with the
`cancelActiveRequest()` call into the generator module. -/
def cancelResponse (s : ConvState) (m : GenModule) : ConvState × GenModule :=
  (cancelConvState s, opCancel m)

/-- Result of driving a chain of failing attempts: the final state, the
scheduled retry delays in order, and the total number of generation
attempts. -/
structure ChainOut where
  state : ConvState
  delays : List Nat
  attempts : Nat
deriving DecidableEq, Repr

/-- Driver for the retry loop when every generation attempt fails: run
`processUserInput`, and as long as `handleError` scheduled a retry timeout,
fire it (which re-invokes `processUserInput` with the same input).  The
fuel bounds the number of calls the driver is willing to run; the chain
itself stops as soon as no retry is scheduled. -/
def failingChain : Nat → ConvState → String → String → Nat → ChainOut
  | 0, s, _, _, _ => ⟨s, [], 0⟩
  | fuel + 1, s, input, msg, now =>
    let c := processUserInput s input now (GenOutcome.failure msg)
    match c.schedRetry with
    | none => ⟨c.state, [], c.genCalls⟩
    | some d =>
      let rest := failingChain fuel c.state input msg now
      ⟨rest.state, d :: rest.delays, c.genCalls + rest.attempts⟩

/-- External actions driving the turn controller: a finalized transcript
(with the generator outcome it meets) or an explicit cancel. -/
inductive TurnAction where
  | userInput (input : String) (now : Nat) (o : GenOutcome)
  | cancel
deriving DecidableEq, Repr

/-- The roles appended to the chat history over a run of turn-controller
actions, in append order. -/
def runTrace : ConvState → List TurnAction → List Role
  | _, [] => []
  | s, TurnAction.cancel :: acts => runTrace (cancelConvState s) acts
  | s, TurnAction.userInput inp now o :: acts =>
    let c := processUserInput s inp now o
    c.appended ++ runTrace c.state acts

/-- Scanner for the History alternation property: walking the appended
roles while counting assistant entries since the last user entry, check
that the count never exceeds one. -/
def atMostOneAux : List Role → Nat → Bool
  | [], _ => true
  | Role.user :: rest, _ => atMostOneAux rest 0
  | Role.assistant :: rest, c => c == 0 && atMostOneAux rest 1

/-- Between two consecutive user entries (and after the last one) at most
one assistant entry is appended. -/
def atMostOneAssistant (l : List Role) : Bool :=
  atMostOneAux l 0

/-- Processing of one final recognition result in the `onresult` handler of
`useSpeechRecognition.ts`: trim the engine transcript; if it is non-empty
and differs from the last processed final result, record it and fire
`onTranscriptComplete`.  Returns the new `lastProcessedResultRef` value and
whether the completion callback fired. -/
def processFinalResult (last : String) (t : String) : String × Bool :=
  let tr := jsTrimS t
  if tr ≠ "" ∧ tr ≠ last then (tr, true) else (last, false)

/-- Folding a sequence of final results through the dedup logic, collecting
the transcripts passed to `onTranscriptComplete` in order. -/
def runFinals (last : String) (ts : List String) : String × List String :=
  ts.foldl
    (fun acc t =>
      let r := processFinalResult acc.1 t
      (r.1, acc.2 ++ (if r.2 then [r.1] else [])))
    (last, [])

/-- A turn-controller state with a turn already in flight. -/
def exBusy : ConvState :=
  ⟨true, none, true, [], 0, none, "", false⟩

/-- The idle turn-controller state at session start. -/
def exIdle : ConvState :=
  ⟨false, none, false, [], 0, none, "", false⟩

/-- A sample run of turn-controller actions. -/
def exActs : List TurnAction :=
  [TurnAction.userInput "Hi" 0 (GenOutcome.success ["Hello. ", "There."]),
   TurnAction.cancel,
   TurnAction.userInput "Again" 1 (GenOutcome.failure "network down"),
   TurnAction.userInput "More" 2 (GenOutcome.abortedCall)]

/-- A numbered sample chat message. -/
def exMsg (i : Nat) : ChatMessage :=
  ⟨Role.user, Nat.repr i, i⟩

/-- A sample history already at the cap. -/
def exHist10 : List ChatMessage :=
  (List.range 10).map exMsg

/-- A generator module with one active, unaborted request. -/
def exModule : GenModule :=
  ⟨[false], some 0⟩

/-- C3: for the input text "Hello there. How are you? I am fine." the
re-segmentation of the Generator Client yields the three sentences in exact
left-to-right order, each fragment non-empty and ending at a sentence
terminator, their space-joined concatenation restores the source text (so
nothing is dropped and nothing overlaps), and the emission loop delivers
them in that order. -/
theorem resegment_fragment_ordering :
    resegmentS "Hello there. How are you? I am fine." =
      ["Hello there.", "How are you?", "I am fine."] ∧
    (∀ f ∈ resegmentS "Hello there. How are you? I am fine.",
      f ≠ "" ∧ isSentTerm (f.data.getLastD 'a') = true) ∧
    String.intercalate " " (resegmentS "Hello there. How are you? I am fine.") =
      "Hello there. How are you? I am fine." ∧
    runGen (resegmentS "Hello there. How are you? I am fine.")
        (opStartNew ⟨[], none⟩) 0
        [GenAction.emitStep, GenAction.emitStep, GenAction.emitStep] =
      [GenEvent.frag "Hello there.", GenEvent.frag "How are you?",
       GenEvent.frag "I am fine."] :=
  ⟨by decide, by decide, by decide, by decide⟩

/-- C2 evaluation at the failing input: call A has decoded the two-sentence
reply "Hello there. How are you?" and emitted its first fragment; during the
200 ms inter-fragment delay the request is cancelled (first trace: explicit
`cancelActiveRequest`; second trace: a superseding `generateGeminiResponse`
call).  In both traces A's second fragment is still delivered after the
cancellation point, because the loop guard reads the module-level
`activeRequest`, which the abort itself has just nulled or replaced with a
fresh, unaborted controller. -/
theorem runGen_emits_after_cancel :
    runGen ["Hello there.", "How are you?"] (opStartNew ⟨[], none⟩) 0
        [GenAction.emitStep, GenAction.cancelCall, GenAction.emitStep] =
      [GenEvent.frag "Hello there.", GenEvent.cancelled,
       GenEvent.frag "How are you?"] ∧
    runGen ["Hello there.", "How are you?"] (opStartNew ⟨[], none⟩) 0
        [GenAction.emitStep, GenAction.startCall, GenAction.emitStep] =
      [GenEvent.frag "Hello there.", GenEvent.superseded,
       GenEvent.frag "How are you?"] :=
  ⟨by decide, by decide⟩

/-- C10: the exported `isHindiText` returns true exactly when its input has
a character in the Devanagari block, the Bengali block, the Devanagari
Extended block, or equal to the literal hyphen; in particular it returns
true on Latin text containing a hyphen and on Bengali text, both of which
contain no Devanagari code point. -/
theorem isHindiText_char_class (s : String) :
    (isHindiText s = true ↔ ∃ c ∈ s.data,
      (0x900 ≤ c.toNat ∧ c.toNat ≤ 0x97F) ∨
      (0x980 ≤ c.toNat ∧ c.toNat ≤ 0x9FF) ∨
      c = '-' ∨
      (0xA8E0 ≤ c.toNat ∧ c.toNat ≤ 0xA8FF)) ∧
    isHindiText "well-known" = true ∧
    (∀ c ∈ "well-known".data, ¬ (0x900 ≤ c.toNat ∧ c.toNat ≤ 0x97F)) ∧
    isHindiText "অআ" = true ∧
    (∀ c ∈ "অআ".data, ¬ (0x900 ≤ c.toNat ∧ c.toNat ≤ 0x97F)) := by
  refine ⟨?_, by decide, by decide, by decide, by decide⟩
  simp [isHindiText, matchesHindiClass, List.any_eq_true, Bool.or_eq_true,
    Bool.and_eq_true, decide_eq_true_eq, or_assoc]

/-- C7: a fragment containing at least one Devanagari code point is tagged
with the Hindi locale, and a fragment containing only Latin letters is
tagged with the default locale. -/
theorem fragment_locale_tagging (chunk chunk2 : String)
    (h1 : ∃ c ∈ chunk.data, 0x900 ≤ c.toNat ∧ c.toNat ≤ 0x97F)
    (h2 : ∀ c ∈ chunk2.data, isLatinLetter c = true) :
    tagChunk chunk = LangTag.hiIN ∧ tagChunk chunk2 = LangTag.enUS := by
  constructor
  · have hdev : isHindiTextDev chunk = true := by
      rcases h1 with ⟨c, hc, hlo, hhi⟩
      refine List.any_eq_true.mpr ⟨c, hc, ?_⟩
      simp [isDevanagariCp]
      omega
    simp [tagChunk, hdev]
  · have hdev : isHindiTextDev chunk2 = false := by
      rw [← Bool.not_eq_true]
      intro hcon
      rcases List.any_eq_true.mp hcon with ⟨c, hc, hdevc⟩
      have hlat := h2 c hc
      simp [isDevanagariCp] at hdevc
      simp [isLatinLetter] at hlat
      omega
    simp [tagChunk, hdev]

/-- Witness for C7 at the concrete fragments "नमस्ते" (Devanagari) and
"Hello" (Latin only). -/
theorem fragment_locale_tagging_witness :
    tagChunk "नमस्ते" = LangTag.hiIN ∧ tagChunk "Hello" = LangTag.enUS :=
  fragment_locale_tagging "नमस्ते" "Hello" (by decide) (by decide)

/-- C6: a final recognition result whose trimmed text equals the
immediately preceding processed final text does not fire the completion
callback and leaves the dedup state unchanged; and the same non-empty final
transcript delivered twice in a row fires the callback exactly once. -/
theorem final_transcript_dedup (last t u s0 : String)
    (h : jsTrimS t = last) (hu : jsTrimS u ≠ "") (hus : jsTrimS u ≠ s0) :
    processFinalResult last t = (last, false) ∧
    runFinals s0 [u, u] = (jsTrimS u, [jsTrimS u]) := by
  constructor
  · simp [processFinalResult, h]
  · simp [runFinals, processFinalResult, hu, hus]

/-- Witness for C6: " hi " trims to the previously processed "hi" and is
not re-emitted; the fresh transcript "yo" delivered twice fires once. -/
theorem final_transcript_dedup_witness :
    processFinalResult "hi" " hi " = ("hi", false) ∧
    runFinals "" ["yo", "yo"] = (jsTrimS "yo", [jsTrimS "yo"]) :=
  final_transcript_dedup "hi" " hi " "yo" "" (by decide) (by decide) (by decide)

/-- One append followed by the trim never leaves the history above the cap. -/
theorem pushAndTrim_length_le (acc : List ChatMessage) (x : ChatMessage)
    (_hle : acc.length ≤ MAX_HISTORY_LENGTH) :
    (pushAndTrim acc x).length ≤ MAX_HISTORY_LENGTH := by
  unfold pushAndTrim trimChatHistory
  split
  · simp only [List.length_append, List.length_take, List.length_drop,
      MAX_HISTORY_LENGTH] at *
    omega
  · simp only [List.length_append, MAX_HISTORY_LENGTH] at *
    omega

/-- Folding any sequence of appends through the trim keeps the bound. -/
theorem foldl_pushAndTrim_le (msgs : List ChatMessage) :
    ∀ acc : List ChatMessage, acc.length ≤ MAX_HISTORY_LENGTH →
      (msgs.foldl pushAndTrim acc).length ≤ MAX_HISTORY_LENGTH := by
  induction msgs with
  | nil => intro acc h; simpa using h
  | cons m ms ih =>
    intro acc h
    simpa [List.foldl] using ih (pushAndTrim acc m) (pushAndTrim_length_le acc m h)

/-- C5: the chat history never exceeds `MAX_HISTORY_LENGTH` entries after
trimming, for any sequence of appends; and an append to a history at the
cap retains exactly the cap count — the first entry plus the most recent
`MAX_HISTORY_LENGTH - 1` entries — in their original relative order. -/
theorem history_trim_bound (h : List ChatMessage) (m : ChatMessage)
    (msgs : List ChatMessage) (hfull : h.length = MAX_HISTORY_LENGTH) :
    (msgs.foldl pushAndTrim []).length ≤ MAX_HISTORY_LENGTH ∧
    pushAndTrim h m = (h.take 1 ++ h.drop 2) ++ [m] ∧
    (pushAndTrim h m).length = MAX_HISTORY_LENGTH ∧
    (pushAndTrim h m).Sublist (h ++ [m]) := by
  have hshape : pushAndTrim h m = (h.take 1 ++ h.drop 2) ++ [m] := by
    unfold pushAndTrim trimChatHistory
    rw [if_pos (by simp [hfull, MAX_HISTORY_LENGTH])]
    rw [List.take_append_eq_append_take, List.drop_append_eq_append_drop]
    simp [hfull, MAX_HISTORY_LENGTH]
  refine ⟨foldl_pushAndTrim_le msgs [] (by simp), hshape, ?_, ?_⟩
  · rw [hshape]
    simp only [List.length_append, List.length_take, List.length_drop, hfull,
      MAX_HISTORY_LENGTH, List.length_cons, List.length_nil]
    omega
  · rw [hshape]
    have hsub : (h.take 1 ++ h.drop 2).Sublist h := by
      conv_rhs => rw [← List.take_append_drop 2 h]
      refine List.Sublist.append ?_ (List.Sublist.refl _)
      have h12 : h.take 1 = (h.take 2).take 1 := by simp [List.take_take]
      rw [h12]
      exact List.take_sublist _ _
    exact hsub.append (List.Sublist.refl [m])

/-- Witness for C5 at a concrete full history of ten messages plus one new
message, and a concrete sequence of twelve appends. -/
theorem history_trim_bound_witness :
    (((List.range 12).map exMsg).foldl pushAndTrim []).length ≤ MAX_HISTORY_LENGTH ∧
    pushAndTrim exHist10 (exMsg 10) = (exHist10.take 1 ++ exHist10.drop 2) ++ [exMsg 10] ∧
    (pushAndTrim exHist10 (exMsg 10)).length = MAX_HISTORY_LENGTH ∧
    (pushAndTrim exHist10 (exMsg 10)).Sublist (exHist10 ++ [exMsg 10]) :=
  history_trim_bound exHist10 (exMsg 10) ((List.range 12).map exMsg) (by decide)

/-- Setting an index of a boolean store to true is visible at that index. -/
theorem getD_set_true (l : List Bool) (i : Nat) (h : i < l.length) :
    (l.set i true).getD i false = true := by
  induction l generalizing i with
  | nil => simp at h
  | cons b bs ih =>
    cases i with
    | zero => rfl
    | succ j =>
      have hj : j < bs.length := by simpa using h
      simpa [List.getD] using ih j hj

/-- C9: `cancelResponse` resets every transient flag and buffer, clears both
pending timers, aborts and clears the active generation token, and leaves
the chat history (and the surfaced error) untouched. -/
theorem cancelResponse_frame (s : ConvState) (m : GenModule) (t : Nat)
    (hact : m.active = some t) (htl : t < m.aborted.length) :
    (cancelResponse s m).1.isLoading = false ∧
    (cancelResponse s m).1.processing = false ∧
    (cancelResponse s m).1.retryAttempts = 0 ∧
    (cancelResponse s m).1.streamBuffer = "" ∧
    (cancelResponse s m).1.retryTimeoutPending = none ∧
    (cancelResponse s m).1.streamTimerPending = false ∧
    (cancelResponse s m).1.history = s.history ∧
    (cancelResponse s m).1.error = s.error ∧
    (cancelResponse s m).2.active = none ∧
    (cancelResponse s m).2.aborted.getD t false = true := by
  refine ⟨rfl, rfl, rfl, rfl, rfl, rfl, rfl, rfl, ?_, ?_⟩
  · simp [cancelResponse, opCancel, hact]
  · simp only [cancelResponse, opCancel, hact]
    exact getD_set_true m.aborted t htl

/-- Witness for C9 at a busy state with one active generation token. -/
theorem cancelResponse_frame_witness :
    (cancelResponse exBusy exModule).1.isLoading = false ∧
    (cancelResponse exBusy exModule).1.processing = false ∧
    (cancelResponse exBusy exModule).1.retryAttempts = 0 ∧
    (cancelResponse exBusy exModule).1.streamBuffer = "" ∧
    (cancelResponse exBusy exModule).1.retryTimeoutPending = none ∧
    (cancelResponse exBusy exModule).1.streamTimerPending = false ∧
    (cancelResponse exBusy exModule).1.history = exBusy.history ∧
    (cancelResponse exBusy exModule).1.error = exBusy.error ∧
    (cancelResponse exBusy exModule).2.active = none ∧
    (cancelResponse exBusy exModule).2.aborted.getD 0 false = true :=
  cancelResponse_frame exBusy exModule 0 (by decide) (by decide)

/-- C8: `generateGeminiResponse` reports failure through `onError`, emitting
no fragment, exactly when the API key is missing or empty (without reaching
`fetch`), when the HTTP status is outside the 2xx range (with the status in
the message), or when the decoded text is empty; an abort of the in-flight
request fires neither `onError` nor `onComplete`; in the remaining case the
fragments are emitted, `onComplete` fires and no error is reported. -/
theorem gemini_failure_cases (fr1 : FetchResult) (k2 k3 k4 k5 : String)
    (s3 : Nat) (t3 : String) (s4 : Nat) (s5 : Nat) (t5 : String)
    (hk2 : k2 ≠ "") (hk3 : k3 ≠ "") (hs3 : ¬ (200 ≤ s3 ∧ s3 < 300))
    (hk4 : k4 ≠ "") (hs4 : 200 ≤ s4 ∧ s4 < 300)
    (hk5 : k5 ≠ "") (hs5 : 200 ≤ s5 ∧ s5 < 300) (ht5 : t5 ≠ "") :
    geminiCall none fr1 = ⟨false, [], false, ["Gemini API key not found"]⟩ ∧
    geminiCall (some "") fr1 = ⟨false, [], false, ["Gemini API key not found"]⟩ ∧
    geminiCall (some k2) FetchResult.aborted = ⟨true, [], false, []⟩ ∧
    geminiCall (some k3) (FetchResult.resp ⟨s3, t3⟩) =
      ⟨true, [], false, [httpErrMsg s3]⟩ ∧
    geminiCall (some k4) (FetchResult.resp ⟨s4, ""⟩) =
      ⟨true, [], false, ["No response received from Gemini API"]⟩ ∧
    geminiCall (some k5) (FetchResult.resp ⟨s5, t5⟩) =
      ⟨true, resegmentS t5, true, []⟩ := by
  refine ⟨rfl, rfl, ?_, ?_, ?_, ?_⟩
  · simp [geminiCall, keyTruthy, hk2]
  · have hbad : respOk ⟨s3, t3⟩ = false := by
      simp only [respOk, Bool.and_eq_false_iff]
      simp only [decide_eq_false_iff_not]
      omega
    simp [geminiCall, keyTruthy, hk3, hbad]
  · have hok : respOk ⟨s4, ""⟩ = true := by
      simp only [respOk, Bool.and_eq_true, decide_eq_true_eq]
      omega
    simp [geminiCall, keyTruthy, hk4, hok]
  · have hok : respOk ⟨s5, t5⟩ = true := by
      simp only [respOk, Bool.and_eq_true, decide_eq_true_eq]
      omega
    simp [geminiCall, keyTruthy, hk5, hok, ht5]

/-- Witness for C8 at a concrete key, statuses and reply text. -/
theorem gemini_failure_cases_witness :
    geminiCall none FetchResult.aborted = ⟨false, [], false, ["Gemini API key not found"]⟩ ∧
    geminiCall (some "") FetchResult.aborted = ⟨false, [], false, ["Gemini API key not found"]⟩ ∧
    geminiCall (some "k") FetchResult.aborted = ⟨true, [], false, []⟩ ∧
    geminiCall (some "k") (FetchResult.resp ⟨500, "Hi."⟩) =
      ⟨true, [], false, [httpErrMsg 500]⟩ ∧
    geminiCall (some "k") (FetchResult.resp ⟨200, ""⟩) =
      ⟨true, [], false, ["No response received from Gemini API"]⟩ ∧
    geminiCall (some "k") (FetchResult.resp ⟨200, "Hi."⟩) =
      ⟨true, resegmentS "Hi.", true, []⟩ :=
  gemini_failure_cases FetchResult.aborted "k" "k" "k" "k" 500 "Hi." 200 200 "Hi."
    (by decide) (by decide) (by decide) (by decide) (by decide) (by decide)
    (by decide) (by decide)

/-- Every `processUserInput` call appends to the history either nothing, a
single user entry, or a user entry followed by one assistant entry. -/
theorem appended_shape (s : ConvState) (inp : String) (now : Nat) (o : GenOutcome) :
    (processUserInput s inp now o).appended = [] ∨
    (processUserInput s inp now o).appended = [Role.user] ∨
    (processUserInput s inp now o).appended = [Role.user, Role.assistant] := by
  by_cases hp : s.processing
  · left
    simp [processUserInput, hp]
  · cases o with
    | abortedCall =>
      right; left
      simp [processUserInput, hp]
    | failure msg =>
      right; left
      simp [processUserInput, hp]
    | success chunks =>
      by_cases hresp : chunks.foldl (fun a c => a ++ c) "" = ""
      · right; left
        simp [processUserInput, hp, hresp]
      · right; right
        simp [processUserInput, hp, hresp]

/-- Scanning the appended-roles trace of any run never finds two assistant
entries between consecutive user entries, whatever the scanner counter. -/
theorem runTrace_scan (acts : List TurnAction) :
    ∀ (s : ConvState) (c : Nat), atMostOneAux (runTrace s acts) c = true := by
  induction acts with
  | nil => intro s c; rfl
  | cons a rest ih =>
    intro s c
    cases a with
    | cancel => simpa [runTrace] using ih (cancelConvState s) c
    | userInput inp now o =>
      rcases appended_shape s inp now o with hsh | hsh | hsh <;>
        simp [runTrace, hsh, atMostOneAux, ih]

/-- C1: while `processing` is true a `processUserInput` call is a complete
no-op — the state (and hence the history) is unchanged, no generation call
is started, no callback fires, no retry is scheduled, nothing is appended;
consequently over any run at most one assistant utterance is appended
between two consecutive user utterances. -/
theorem processUserInput_blocked_noop (s : ConvState) (input : String) (now : Nat)
    (o : GenOutcome) (s0 : ConvState) (acts : List TurnAction)
    (hp : s.processing = true) :
    processUserInput s input now o = ⟨s, [], 0, none, []⟩ ∧
    atMostOneAssistant (runTrace s0 acts) = true := by
  refine ⟨?_, runTrace_scan acts s0 0⟩
  simp [processUserInput, hp]

/-- Witness for C1 at a busy state and a concrete four-action run. -/
theorem processUserInput_blocked_noop_witness :
    processUserInput exBusy "Hi" 0 (GenOutcome.failure "network down") =
      ⟨exBusy, [], 0, none, []⟩ ∧
    atMostOneAssistant (runTrace exIdle exActs) = true :=
  processUserInput_blocked_noop exBusy "Hi" 0 (GenOutcome.failure "network down")
    exIdle exActs (by decide)

/-- Unfolding equation of `failingChain` at positive fuel. -/
theorem failingChain_succ (fuel : Nat) (s : ConvState) (input msg : String) (now : Nat) :
    failingChain (fuel + 1) s input msg now =
      (let c := processUserInput s input now (GenOutcome.failure msg)
       match c.schedRetry with
       | none => ⟨c.state, [], c.genCalls⟩
       | some d =>
         let rest := failingChain fuel c.state input msg now
         ⟨rest.state, d :: rest.delays, c.genCalls + rest.attempts⟩) := rfl

/-- C4: when every generation attempt fails, the controller schedules the
retries with delays `RETRY_DELAY * attemptNumber` (linearly increasing),
performs exactly `1 + MAX_RETRY_ATTEMPTS` generation attempts in total
however much fuel the driver is given (so the chain stops by itself, not by
fuel), and settles with `processing` and `isLoading` false and the error
surfaced. -/
theorem retry_linear_backoff_cap (s : ConvState) (input msg : String) (now k : Nat)
    (hp : s.processing = false) (hr : s.retryAttempts = 0) :
    (failingChain (k + 3) s input msg now).delays =
      [RETRY_DELAY * 1, RETRY_DELAY * 2] ∧
    (failingChain (k + 3) s input msg now).attempts = 1 + MAX_RETRY_ATTEMPTS ∧
    (failingChain (k + 3) s input msg now).state.processing = false ∧
    (failingChain (k + 3) s input msg now).state.isLoading = false ∧
    (failingChain (k + 3) s input msg now).state.error = some msg := by
  have call1 :
      processUserInput s input now (GenOutcome.failure msg) =
        ⟨⟨false, some msg, false, pushAndTrim s.history ⟨Role.user, input, now⟩, 1,
          some (RETRY_DELAY * 1), "", s.streamTimerPending⟩,
         [getLocalizedErrorMessage msg], 1, some (RETRY_DELAY * 1), [Role.user]⟩ := by
    simp [processUserInput, handleError, hp, hr, MAX_RETRY_ATTEMPTS]
  have call2 :
      processUserInput
        ⟨false, some msg, false, pushAndTrim s.history ⟨Role.user, input, now⟩, 1,
         some (RETRY_DELAY * 1), "", s.streamTimerPending⟩
        input now (GenOutcome.failure msg) =
        ⟨⟨false, some msg, false,
          pushAndTrim (pushAndTrim s.history ⟨Role.user, input, now⟩)
            ⟨Role.user, input, now⟩, 2,
          some (RETRY_DELAY * 2), "", s.streamTimerPending⟩,
         [getLocalizedErrorMessage msg], 1, some (RETRY_DELAY * 2), [Role.user]⟩ := by
    simp [processUserInput, handleError, MAX_RETRY_ATTEMPTS]
  have call3 :
      processUserInput
        ⟨false, some msg, false,
         pushAndTrim (pushAndTrim s.history ⟨Role.user, input, now⟩)
           ⟨Role.user, input, now⟩, 2,
         some (RETRY_DELAY * 2), "", s.streamTimerPending⟩
        input now (GenOutcome.failure msg) =
        ⟨⟨false, some msg, false,
          pushAndTrim
            (pushAndTrim (pushAndTrim s.history ⟨Role.user, input, now⟩)
              ⟨Role.user, input, now⟩)
            ⟨Role.user, input, now⟩, 2,
          some (RETRY_DELAY * 2), "", s.streamTimerPending⟩,
         [getLocalizedErrorMessage msg], 1, none, [Role.user]⟩ := by
    simp [processUserInput, handleError, MAX_RETRY_ATTEMPTS]
  rw [show k + 3 = (k + 2) + 1 from rfl, failingChain_succ, call1]
  simp only []
  rw [show k + 2 = (k + 1) + 1 from rfl, failingChain_succ, call2]
  simp only []
  rw [failingChain_succ, call3]
  simp [MAX_RETRY_ATTEMPTS]

/-- Witness for C4 from the idle session-start state. -/
theorem retry_linear_backoff_cap_witness :
    (failingChain (0 + 3) exIdle "Hi" "boom" 0).delays =
      [RETRY_DELAY * 1, RETRY_DELAY * 2] ∧
    (failingChain (0 + 3) exIdle "Hi" "boom" 0).attempts = 1 + MAX_RETRY_ATTEMPTS ∧
    (failingChain (0 + 3) exIdle "Hi" "boom" 0).state.processing = false ∧
    (failingChain (0 + 3) exIdle "Hi" "boom" 0).state.isLoading = false ∧
    (failingChain (0 + 3) exIdle "Hi" "boom" 0).state.error = some "boom" :=
  retry_linear_backoff_cap exIdle "Hi" "boom" 0 0 (by decide) (by decide)
